import Mathlib

/-!
Verification of the CandicePay Telegram bot (`bot.py`).

Shallow embedding of the parts of the program the checked properties talk
about: the wallet-update primitive, the payment flow (`process_payment`),
the transfer-request construction, the vision-extraction response parsing,
the registration conversation steps, and the admin API (authentication and
pagination).  Python floats are modelled as exact rationals, SQLite tables
as Lean lists of rows, and each external HTTP response as explicit input
data.  Theorems after the definitions check the specification claims.
-/

namespace CandicePay

/-- Monetary amounts and JSON numbers.  Python floats are modelled as exact
rationals: the properties under check concern exact arithmetic, not binary
rounding. -/
abbrev Money := ℚ

/-- One row of the `users` table (the columns the modelled code reads or
writes). -/
structure User where
  id : Nat
  telegram_id : Nat
  email : String
  affiliate_code : String
  referred_by : Option String
  wallet_balance : Money
  status : String
deriving Repr, DecidableEq

/-- One row of the `transactions` table, as written by
`Database.create_transaction` (bot.py 290-317). -/
structure Transaction where
  user_id : Nat
  type : String
  amount : Money
  fee : Money
  net_amount : Money
  recipient_name : String
  recipient_account : String
  recipient_bank : String
  reference : String
  paystack_reference : Option String
  status : String
  description : String
  affiliate_bonus : Money
  affiliate_user_id : Option Nat
deriving Repr, DecidableEq

/-- The slice of the SQLite database the modelled code touches.  Row order
models insertion order (`id` ascending), so `List.find?` models SQL
`fetch_one` on an equality filter. -/
structure DB where
  users : List User
  transactions : List Transaction
deriving Repr, DecidableEq

/-- The per-row effect of the SQL `UPDATE` in `Database.update_wallet`
(bot.py 281-288): a row whose `id` matches gets its `wallet_balance` changed,
added to when the operation string is exactly `"add"`, subtracted from on any
other operation string. -/
def walletUpd (user_id : Nat) (amount : Money) (operation : String)
    (u : User) : User :=
  if u.id = user_id then
    if operation = "add" then
      { u with wallet_balance := u.wallet_balance + amount }
    else
      { u with wallet_balance := u.wallet_balance - amount }
  else u

/-- `Database.update_wallet` (bot.py 281-288). -/
def Database.update_wallet (db : DB) (user_id : Nat) (amount : Money)
    (operation : String) : DB :=
  { db with users := db.users.map (walletUpd user_id amount operation) }

/-- `Database.create_transaction` (bot.py 290-317): inserts one transaction
row. -/
def Database.create_transaction (db : DB) (t : Transaction) : DB :=
  { db with transactions := db.transactions ++ [t] }

/-- `SELECT * FROM users WHERE id = ?` through `fetch_one` (first matching
row). -/
def fetchUserById (users : List User) (user_id : Nat) : Option User :=
  users.find? (fun u => u.id == user_id)

/-- `SELECT * FROM users WHERE affiliate_code = ?` through `fetch_one`. -/
def fetchUserByCode (users : List User) (code : String) : Option User :=
  users.find? (fun u => u.affiliate_code == code)

/-- A bank entry from the gateway's bank list. -/
structure Bank where
  name : String
  code : String
deriving Repr, DecidableEq

/-- Gateway response to `paystack.get_banks` (status flag plus bank list). -/
structure BanksResult where
  status : Bool
  data : List Bank
deriving Repr, DecidableEq

/-- Gateway response to `paystack.resolve_account` (only the status flag is
read by `process_payment`). -/
structure ResolveResult where
  status : Bool
deriving Repr, DecidableEq

/-- Gateway response to `paystack.create_transfer_recipient`. -/
structure RecipientResult where
  status : Bool
  recipient_code : String
deriving Repr, DecidableEq

/-- Gateway response to `paystack.initiate_transfer`;
`reference` models `transfer_data.get('reference')`. -/
structure TransferResult where
  status : Bool
  reference : Option String
deriving Repr, DecidableEq

/-- Contiguous-sublist test on character lists. -/
def listInfix (needle : List Char) : List Char → Bool
  | [] => needle.isEmpty
  | c :: tail => needle.isPrefixOf (c :: tail) || listInfix needle tail

/-- Python `str.lower` on one character (ASCII letters; the bank names in
play are ASCII). -/
def lowerChar (c : Char) : Char :=
  if 65 ≤ c.toNat ∧ c.toNat ≤ 90 then Char.ofNat (c.toNat + 32) else c

/-- Python `s.lower()`, as a character list. -/
def lowerStr (s : String) : List Char := s.toList.map lowerChar

/-- Python `a.lower() in b.lower()`: case-insensitive substring test. -/
def strInLower (a b : String) : Bool := listInfix (lowerStr a) (lowerStr b)

/-- The bank-match test inside the loop of `process_payment`
(bot.py 1149-1150): case-insensitive substring containment in either
direction. -/
def bankNameMatches (bank_name : String) (b : Bank) : Bool :=
  strInLower bank_name b.name || strInLower b.name bank_name

/-- The bank-selection loop of `process_payment` (bot.py 1147-1152): the first
list entry passing the two-way substring test, if any. -/
def findBank (banks : List Bank) (bank_name : String) : Option Bank :=
  banks.find? (bankNameMatches bank_name)

/-- The recipient fields `process_payment` works from (extracted from a slip
image or entered manually). -/
structure PaymentDetails where
  account_name : String
  account_number : String
  bank_name : String
  amount : Money
deriving Repr, DecidableEq

/-- The gateway's responses to the four calls made during one run of
`process_payment`.  The network is external, so each response is input
data to the embedding. -/
structure GatewayEnv where
  banks_result : BanksResult
  resolve_result : ResolveResult
  recipient_result : RecipientResult
  transfer_result : TransferResult
deriving Repr, DecidableEq

/-- The dictionary `process_payment` returns. -/
structure PayResult where
  success : Bool
  error : Option String
  reference : Option String
  transaction_id : Option Nat
deriving Repr, DecidableEq

/-- A short-circuit failure return of `process_payment`. -/
def payFail (e : String) : PayResult :=
  { success := false, error := some e, reference := none, transaction_id := none }

/-- The referrer lookup of `process_payment` (bot.py 1197-1204): refetch the
payer by id, and when `referred_by` is Python-truthy (present and
non-empty), fetch the first user carrying that affiliate code. -/
def referrerLookup (users : List User) (user_id : Nat) : Option User :=
  match fetchUserById users user_id with
  | none => none
  | some user =>
    match user.referred_by with
    | none => none
    | some code =>
      if code.isEmpty then none
      else fetchUserByCode users code

/-- The tail of `process_payment` after all four gateway calls succeeded
(bot.py 1188-1240): debit the payer, look up a referrer through
`referred_by` (a Python-truthy, i.e. present and non-empty, code), credit the
0.5% affiliate bonus, insert the transaction row. -/
def settle_payment (env : GatewayEnv) (db : DB) (user_id : Nat)
    (pd : PaymentDetails) (reference : String) : PayResult × DB :=
  let db1 := Database.update_wallet db user_id pd.amount "subtract"
  let affiliate_bonus : Money := pd.amount * (0.005 : ℚ)
  let referrer? : Option User := referrerLookup db1.users user_id
  let affiliate_user_id := referrer?.map (fun r => r.id)
  let db2 := match referrer? with
    | none => db1
    | some r => Database.update_wallet db1 r.id affiliate_bonus "add"
  let txn : Transaction :=
    { user_id := user_id
      type := "payment"
      amount := pd.amount
      fee := 0
      net_amount := pd.amount
      recipient_name := pd.account_name
      recipient_account := pd.account_number
      recipient_bank := pd.bank_name
      reference := reference
      paystack_reference := env.transfer_result.reference
      status := "pending"
      description := "Smart image payment"
      affiliate_bonus := affiliate_bonus
      affiliate_user_id := affiliate_user_id }
  let db3 := Database.create_transaction db2 txn
  ({ success := true, error := none, reference := some reference,
     transaction_id := some db2.transactions.length }, db3)

/-- `CandicePayBot.process_payment` (bot.py 1132-1244), with `user_id`
supplied (the `user_id=None` lookup path precedes the modelled steps).  Each
gateway sub-step short-circuits to a typed failure on a non-success response;
on full success the settlement tail runs. -/
def process_payment (env : GatewayEnv) (db : DB) (user_id : Nat)
    (pd : PaymentDetails) (reference : String) : PayResult × DB :=
  if !env.banks_result.status then (payFail "Could not fetch banks", db)
  else
    match findBank env.banks_result.data pd.bank_name with
    | none => (payFail "Bank not found", db)
    | some _bank =>
      if !env.resolve_result.status then
        (payFail "Account verification failed", db)
      else if !env.recipient_result.status then
        (payFail "Recipient creation failed", db)
      else if !env.transfer_result.status then
        (payFail "Transfer initiation failed", db)
      else
        settle_payment env db user_id pd reference

/-- The balance gate at the start of the `/pay` command (bot.py 950-962): the
flow is refused when `balance <= 0`; this is the only place the flow looks at
the balance. -/
def pay_command_allows (balance : Money) : Bool :=
  if balance ≤ 0 then false else true

/-- Python `int()` on a (rational-modelled) float: truncation toward zero. -/
def pyInt (q : ℚ) : ℤ := if 0 ≤ q then ⌊q⌋ else -⌊-q⌋

/-- The request body `PaystackService.initiate_transfer` posts to the
gateway (bot.py 452-468). -/
structure TransferRequest where
  source : String
  amount : ℤ
  recipient : String
  reason : String
deriving Repr, DecidableEq

/-- `PaystackService.initiate_transfer` (bot.py 452-468): the body sent to
`POST /transfer`; the amount is `int(amount * 100)` (major units to kobo). -/
def PaystackService.initiate_transfer_body (amount : Money)
    (recipient_code : String) (reason : String) : TransferRequest :=
  { source := "balance", amount := pyInt (amount * 100),
    recipient := recipient_code, reason := reason }

/-- The `pagination` object of the admin list endpoints
(bot.py 1605-1614, 1659-1668). -/
structure Pagination where
  page : Nat
  limit : Nat
  total : Nat
  pages : Nat
deriving Repr, DecidableEq

/-- The pagination core of `get_users` (bot.py 1580-1614): over the filtered,
ordered row list, `offset = (page - 1) * limit`, `LIMIT ? OFFSET ?`, and
`pages = (total + limit - 1) // limit`. -/
def get_users_page {α : Type} (rows : List α) (page limit : Nat) :
    List α × Pagination :=
  let offset := (page - 1) * limit
  ((rows.drop offset).take limit,
   { page := page, limit := limit, total := rows.length,
     pages := (rows.length + limit - 1) / limit })

/-- The pagination core of `get_transactions` (bot.py 1616-1668): identical
offset/limit/pages arithmetic over the filtered transaction rows. -/
def get_transactions_page {α : Type} (rows : List α) (page limit : Nat) :
    List α × Pagination :=
  let offset := (page - 1) * limit
  ((rows.drop offset).take limit,
   { page := page, limit := limit, total := rows.length,
     pages := (rows.length + limit - 1) / limit })

/-- Per-user registration conversation state (`self.user_states[user.id]`),
a step tag plus the fields collected so far. -/
structure RegState where
  step : String
  email : Option String
  first_name : Option String
  phone : Option String
  referred_by : Option String
deriving Repr, DecidableEq

/-- What one `handle_message` dispatch does with the current state. -/
inductive RegOutcome where
  /-- Invalid input: a re-prompt is sent and the handler returns without
  touching the state (`return` at bot.py 811 and 831). -/
  | reprompt (reply : String)
  /-- Valid input: the state is mutated and stored back. -/
  | updated (s : RegState) (reply : String)
  /-- Valid phone: the state is stored and account creation proceeds
  (external gateway calls, then the state entry is deleted). -/
  | createAccount (s : RegState)
  /-- The step tag matches no registration step. -/
  | ignored
deriving Repr, DecidableEq

/-- The per-state step dispatch of `CandicePayBot.handle_message`
(bot.py 806-834): email needs both `'@'` and `'.'` present, phone needs at
least 10 digit characters after stripping non-digits. -/
def handle_message_step (state : RegState) (text : String) : RegOutcome :=
  if state.step = "awaiting_email" then
    if !(text.toList.contains '@') || !(text.toList.contains '.') then
      .reprompt "Please enter a valid email address:"
    else
      .updated { state with email := some text, step := "awaiting_first_name" }
        "Great! Now send your first name:"
  else if state.step = "awaiting_first_name" then
    .updated { state with first_name := some text, step := "awaiting_phone" }
      "Send your phone number (e.g., 08012345678):"
  else if state.step = "awaiting_phone" then
    let phone := (text.toList.filter Char.isDigit).asString
    if phone.length < 10 then
      .reprompt "Please enter a valid phone number (10+ digits):"
    else
      .createAccount { state with phone := some phone }
  else .ignored

/-- The in-memory conversation map `self.user_states`, keyed by the chat
identity. -/
abbrev UserStates := List (Nat × RegState)

/-- Writing `self.user_states[user.id] = state`. -/
def setState (m : UserStates) (uid : Nat) (s : RegState) : UserStates :=
  if (m.lookup uid).isSome then
    m.map (fun p => if p.1 == uid then (uid, s) else p)
  else m ++ [(uid, s)]

/-- `CandicePayBot.handle_message` (bot.py 796-834) as a map transformer:
no state entry means the message is ignored; a re-prompt leaves the map
untouched; otherwise the mutated state is stored (the account-creation
continuation after a valid phone is external and not part of this map
update). -/
def handle_message (m : UserStates) (uid : Nat) (text : String) : UserStates :=
  match m.lookup uid with
  | none => m
  | some state =>
    match handle_message_step state text with
    | .reprompt _ => m
    | .updated s _ => setState m uid s
    | .createAccount s => setState m uid s
    | .ignored => m

/-! ### Vision extraction (`DeepSeekService.extract_bank_details`) -/

/-- The opening-brace character, written by code to stay clear of brace
handling in literals. -/
def lbrace : Char := Char.ofNat 123

/-- The closing-brace character. -/
def rbrace : Char := Char.ofNat 125

/-- The double-quote character. -/
def dquote : Char := Char.ofNat 34

/-- The backslash character. -/
def bslash : Char := Char.ofNat 92

/-- JSON values, the possible results of `json.loads`. -/
inductive Json where
  | null
  | bool (b : Bool)
  | num (q : ℚ)
  | str (s : String)
  | arr (elems : List Json)
  | obj (fields : List (String × Json))
deriving Repr

/-- JSON whitespace. -/
def isWs (c : Char) : Bool := c = ' ' || c = '\t' || c = '\n' || c = '\r'

/-- Drop leading JSON whitespace. -/
def skipWs : List Char → List Char
  | [] => []
  | c :: cs => if isWs c then skipWs cs else c :: cs

/-- Decimal digits to a natural number. -/
def digitsToNat (ds : List Char) : Nat :=
  ds.foldl (fun a c => a * 10 + (c.toNat - 48)) 0

/-- JSON string body after the opening quote: plain characters up to the
closing quote, a backslash escaping the next character (`\n`, `\t`, `\r`
decoded, any other escaped character taken literally). -/
def parseStringChars : Nat → List Char → Option (List Char × List Char)
  | 0, _ => none
  | fuel + 1, cs =>
    match cs with
    | [] => none
    | c :: rest =>
      if c = dquote then some ([], rest)
      else if c = bslash then
        match rest with
        | [] => none
        | e :: rest2 =>
          let ec := if e = 'n' then '\n' else if e = 't' then '\t'
                    else if e = 'r' then '\r' else e
          match parseStringChars fuel rest2 with
          | some (s, r) => some (ec :: s, r)
          | none => none
      else
        match parseStringChars fuel rest with
        | some (s, r) => some (c :: s, r)
        | none => none

/-- Fractional part of a JSON number (after the integer digits). -/
def parseFrac (cs : List Char) : Option (ℚ × List Char) :=
  match cs with
  | [] => some (0, [])
  | c :: rest =>
    if c = '.' then
      let fp := rest.takeWhile Char.isDigit
      if fp.isEmpty then none
      else some ((digitsToNat fp : ℚ) / (10 : ℚ) ^ fp.length,
                 rest.dropWhile Char.isDigit)
    else some (0, c :: rest)

/-- Exponent part of a JSON number, returned as a multiplier. -/
def parseExp (cs : List Char) : Option (ℚ × List Char) :=
  match cs with
  | [] => some (1, [])
  | c :: rest =>
    if c = 'e' || c = 'E' then
      let (esign, rest1) : ℤ × List Char :=
        match rest with
        | [] => (1, rest)
        | d :: r2 => if d = '+' then (1, r2) else if d = '-' then (-1, r2)
                     else (1, rest)
      let ds := rest1.takeWhile Char.isDigit
      if ds.isEmpty then none
      else some ((10 : ℚ) ^ (esign * (digitsToNat ds : ℤ)),
                 rest1.dropWhile Char.isDigit)
    else some (1, c :: rest)

/-- A JSON number: optional minus, integer digits, optional fraction and
exponent. -/
def parseNumber (cs : List Char) : Option (ℚ × List Char) :=
  let (neg, cs1) : Bool × List Char :=
    match cs with
    | [] => (false, cs)
    | c :: rest => if c = '-' then (true, rest) else (false, cs)
  let ip := cs1.takeWhile Char.isDigit
  if ip.isEmpty then none
  else
    match parseFrac (cs1.dropWhile Char.isDigit) with
    | none => none
    | some (f, cs3) =>
      match parseExp cs3 with
      | none => none
      | some (m, cs4) =>
        let v := ((digitsToNat ip : ℚ) + f) * m
        some (if neg then -v else v, cs4)

/-- Exact-literal parser (for `null`, `true`, `false` tails). -/
def parseLit (lit : List Char) (cs : List Char) : Option (List Char) :=
  if lit.isPrefixOf cs then some (cs.drop lit.length) else none

mutual

/-- One JSON value (fuel-indexed recursive-descent model of `json.loads`;
the fuel is an embedding device, `jsonLength + 1` always suffices since
every recursive call consumes input). -/
def parseValue : Nat → List Char → Option (Json × List Char)
  | 0, _ => none
  | fuel + 1, cs0 =>
    match skipWs cs0 with
    | [] => none
    | c :: rest =>
      if c = dquote then
        match parseStringChars (rest.length + 1) rest with
        | some (s, r) => some (.str s.asString, r)
        | none => none
      else if c = lbrace then
        match skipWs rest with
        | [] => none
        | d :: rest2 =>
          if d = rbrace then some (.obj [], rest2)
          else
            match parseMembers fuel (d :: rest2) with
            | some (fs, r) => some (.obj fs, r)
            | none => none
      else if c = '[' then
        match skipWs rest with
        | [] => none
        | d :: rest2 =>
          if d = ']' then some (.arr [], rest2)
          else
            match parseElems fuel (d :: rest2) with
            | some (es, r) => some (.arr es, r)
            | none => none
      else if c = 'n' then
        match parseLit ['u', 'l', 'l'] rest with
        | some r => some (.null, r)
        | none => none
      else if c = 't' then
        match parseLit ['r', 'u', 'e'] rest with
        | some r => some (.bool true, r)
        | none => none
      else if c = 'f' then
        match parseLit ['a', 'l', 's', 'e'] rest with
        | some r => some (.bool false, r)
        | none => none
      else
        match parseNumber (c :: rest) with
        | some (q, r) => some (.num q, r)
        | none => none

/-- Members of a non-empty JSON object, up to and including the closing
brace. -/
def parseMembers : Nat → List Char → Option (List (String × Json) × List Char)
  | 0, _ => none
  | fuel + 1, cs =>
    match skipWs cs with
    | [] => none
    | c :: rest =>
      if c = dquote then
        match parseStringChars (rest.length + 1) rest with
        | none => none
        | some (k, r1) =>
          match skipWs r1 with
          | [] => none
          | d :: r2 =>
            if d = ':' then
              match parseValue fuel r2 with
              | none => none
              | some (v, r3) =>
                match skipWs r3 with
                | [] => none
                | e :: r4 =>
                  if e = ',' then
                    match parseMembers fuel r4 with
                    | some (fs, r5) => some ((k.asString, v) :: fs, r5)
                    | none => none
                  else if e = rbrace then some ([(k.asString, v)], r4)
                  else none
            else none
      else none

/-- Elements of a non-empty JSON array, up to and including the closing
bracket. -/
def parseElems : Nat → List Char → Option (List Json × List Char)
  | 0, _ => none
  | fuel + 1, cs =>
    match parseValue fuel cs with
    | none => none
    | some (v, r) =>
      match skipWs r with
      | [] => none
      | e :: r2 =>
        if e = ',' then
          match parseElems fuel r2 with
          | some (es, r3) => some (v :: es, r3)
          | none => none
        else if e = ']' then some ([v], r2)
        else none

end

/-- `json.loads` on the matched text: one JSON value covering the whole
input (up to trailing whitespace). -/
def json_loads (cs : List Char) : Option Json :=
  match parseValue (cs.length + 1) cs with
  | some (v, rest) => if (skipWs rest).isEmpty then some v else none
  | none => none

/-- Index of the last closing brace in a character list. -/
def lastCloseIdx (cs : List Char) : Option Nat :=
  match cs.reverse.findIdx? (fun c => c = rbrace) with
  | some r => some (cs.length - 1 - r)
  | none => none

/-- The `re.search` over the model output (bot.py 541): the pattern is an
opening brace, a greedy dot-all run, a closing brace, so the match (when one
exists) spans from the first opening brace to the last closing brace after
it. -/
def re_search_braces (s : String) : Option (List Char) :=
  let cs := s.toList
  match cs.findIdx? (fun c => c = lbrace), lastCloseIdx cs with
  | some i, some k => if i < k then some ((cs.drop i).take (k - i + 1)) else none
  | _, _ => none

/-- The dictionary `extract_bank_details` returns. -/
structure ExtractResult where
  success : Bool
  data : Option Json
  error : Option String
deriving Repr

/-- The soft-failure return of `extract_bank_details` (bot.py 551-554). -/
def extractFail : ExtractResult :=
  { success := false, data := none,
    error := some "Could not extract bank details" }

/-- The response handling of `DeepSeekService.extract_bank_details`
(bot.py 536-554).  `content` is `result.choices[0].message.content` when
present; `none` models the caught `KeyError` of a malformed API response.
Brace-match the content, `json.loads` the match, and return the parsed value
with `success = True`; any failure along the way yields the soft failure. -/
def extract_bank_details (content : Option String) : ExtractResult :=
  match content with
  | none => extractFail
  | some c =>
    match re_search_braces c with
    | none => extractFail
    | some m =>
      match json_loads m with
      | none => extractFail
      | some v => { success := true, data := some v, error := none }

/-- Key lookup on a parsed JSON value (an object containing the key). -/
def Json.hasKey (v : Json) (k : String) : Bool :=
  match v with
  | .obj fields => fields.any (fun f => f.1 == k)
  | _ => false

/-- The four keys the extraction prompt asks for (bot.py 519). -/
def hasExpectedKeys (v : Json) : Bool :=
  v.hasKey "account_number" && v.hasKey "account_name" &&
  v.hasKey "bank_name" && v.hasKey "amount"

/-! ### Admin web service (authentication and endpoints) -/

/-- The JWT claims `create_jwt_token` signs (bot.py 1476-1483); `exp` is an
absolute expiry timestamp. -/
structure JwtPayload where
  sub : String
  user_id : Nat
  exp : Nat
deriving Repr, DecidableEq

/-- A token string as `jwt.decode` sees it: either produced by `jwt.encode`
with some payload and signing secret (signature verification recovers
exactly these), or any other string.  This models the unforgeability of the
HMAC signature. -/
inductive TokenStr where
  | signed (payload : JwtPayload) (secret : String)
  | malformed (s : String)
deriving Repr, DecidableEq

/-- The `jwt.decode` call inside `verify_jwt_token`: the payload when the
signature verifies under `secret` and the token is not expired; decoding
raises (`ExpiredSignatureError` / `InvalidTokenError`) otherwise. -/
def jwtDecode (secret : String) (now : Nat) (t : TokenStr) : Option JwtPayload :=
  match t with
  | .signed p s =>
    if s = secret then (if p.exp ≤ now then none else some p) else none
  | .malformed _ => none

/-- `verify_jwt_token` (bot.py 1485-1493): returns the payload, or `None`
when decoding raises. -/
def verify_jwt_token (secret : String) (now : Nat) (t : TokenStr) :
    Option JwtPayload :=
  jwtDecode secret now t

/-- An admin API response: 401, a 400 body, an HTTP 500 from an exception
that escaped the handler (the error string is the exception detail), or a
200 body. -/
inductive ApiResponse (α : Type) where
  | unauthorized
  | badRequest (error : String)
  | internalError (error : String)
  | ok (body : α)
deriving Repr, DecidableEq

/-- The common auth gate of every `/admin/api/*` endpoint
(e.g. bot.py 1558-1560): 401 when the `auth_token` cookie is absent or
`verify_jwt_token` returns `None`, otherwise the handler body runs. -/
def authGate {α : Type} (secret : String) (now : Nat)
    (cookie : Option TokenStr) (body : ApiResponse α) : ApiResponse α :=
  match cookie with
  | none => .unauthorized
  | some t =>
    match verify_jwt_token secret now t with
    | none => .unauthorized
    | some _ => body

/-- The body of the `/admin/api/stats` response (bot.py 1570-1578). -/
structure StatsBody where
  users : Nat
  transactions : Nat
  totalVolume : Money
  todayVolume : Money
deriving Repr, DecidableEq

/-- `SUM(amount)` over transaction rows (with SQL `NULL`-to-0 via `or 0`). -/
def sumAmounts (ts : List Transaction) : Money := (ts.map (fun t => t.amount)).sum

/-- `get_stats` (bot.py 1555-1578).  `isToday` models the SQL
`DATE(created_at) = DATE('now')` row filter (timestamps are not part of the
modelled rows). -/
def get_stats (secret : String) (now : Nat) (cookie : Option TokenStr)
    (db : DB) (isToday : Transaction → Bool) : ApiResponse StatsBody :=
  authGate secret now cookie
    (.ok { users := db.users.length, transactions := db.transactions.length,
           totalVolume := sumAmounts db.transactions,
           todayVolume := sumAmounts (db.transactions.filter isToday) })

/-- `get_users` (bot.py 1580-1614): auth gate, then offset pagination over
the (searched, ordered) user rows; the search filter and `ORDER BY` are
applied to the row list before pagination, so the paged rows are passed in
as `rows`. -/
def get_users (secret : String) (now : Nat) (cookie : Option TokenStr)
    (rows : List User) (page limit : Nat) :
    ApiResponse (List User × Pagination) :=
  authGate secret now cookie (.ok (get_users_page rows page limit))

/-- `get_transactions` (bot.py 1616-1668): auth gate, then the optional
`type`/`status` equality filters (a Python-falsy empty string disables a
filter).  The filter conditions `t.type = ?` / `t.status = ?` are appended
to both the row query (aliased `FROM transactions t`, bot.py 1631-1635)
and the count query (`SELECT COUNT(*) as total FROM transactions`,
bot.py 1637, which has no alias `t`).  With both filters empty no
condition is appended and the paginated rows are returned; with any
non-empty filter the row query still succeeds but the count query raises
`sqlite3.OperationalError` ("no such column: t.type", or `t.status` when
only the status filter is set), which escapes the handler — there is no
`try` around it — as an HTTP 500, so no documented body is produced. -/
def get_transactions (secret : String) (now : Nat) (cookie : Option TokenStr)
    (rows : List Transaction) (page limit : Nat) (type_ status_ : String) :
    ApiResponse (List Transaction × Pagination) :=
  authGate secret now cookie
    (if type_.isEmpty && status_.isEmpty then
      .ok (get_transactions_page rows page limit)
    else
      .internalError (if type_.isEmpty then "no such column: t.status"
        else "no such column: t.type"))

/-- `broadcast_message` (bot.py 1670-1696): auth gate, minimum message
length 5, then the stub reply counting the active users. -/
def broadcast_message (secret : String) (now : Nat) (cookie : Option TokenStr)
    (db : DB) (message : String) : ApiResponse String :=
  authGate secret now cookie
    (if message.isEmpty || message.length < 5 then
      .badRequest "Message too short"
    else
      .ok ("Broadcast would be sent to " ++
        toString (db.users.filter (fun u => u.status == "active")).length ++
        " users"))

/-! ### Concrete sample data, used by the witness theorems -/

/-- A small gateway bank list. -/
def demoBanks : List Bank :=
  [{ name := "Guaranty Trust Bank", code := "058" },
   { name := "Zenith Bank", code := "057" }]

/-- A registered payer who was referred by `demoReferrer`. -/
def demoUser : User :=
  { id := 1, telegram_id := 11, email := "payer@example.com",
    affiliate_code := "CANDICEAAA111", referred_by := some "CANDICEBBB222",
    wallet_balance := 500, status := "active" }

/-- The referring user. -/
def demoReferrer : User :=
  { id := 2, telegram_id := 22, email := "ref@example.com",
    affiliate_code := "CANDICEBBB222", referred_by := none,
    wallet_balance := 40, status := "active" }

/-- A two-user database with no transactions yet. -/
def demoDB : DB := { users := [demoUser, demoReferrer], transactions := [] }

/-- An all-success gateway run. -/
def demoEnv : GatewayEnv :=
  { banks_result := { status := true, data := demoBanks },
    resolve_result := { status := true },
    recipient_result := { status := true, recipient_code := "RCP_demo" },
    transfer_result := { status := true, reference := some "PS_demo" } }

/-- The same run with the transfer-initiation call failing. -/
def demoEnvTransferFail : GatewayEnv :=
  { demoEnv with transfer_result := { status := false, reference := none } }

/-- The payment the demos run: 10000.00 to a Zenith account. -/
def demoPd : PaymentDetails :=
  { account_name := "JOHN DOE", account_number := "0123456789",
    bank_name := "zenith", amount := 10000 }

/-- A registration state at the email step. -/
def demoStateEmail : RegState :=
  { step := "awaiting_email", email := none, first_name := none,
    phone := none, referred_by := none }

/-- A registration state at the phone step. -/
def demoStatePhone : RegState :=
  { step := "awaiting_phone", email := some "a@b.c",
    first_name := some "Jo", phone := none, referred_by := none }

/-- A conversation map with one user at the email step. -/
def demoStatesEmail : UserStates := [(7, demoStateEmail)]

/-- A conversation map with one user at the phone step. -/
def demoStatesPhone : UserStates := [(7, demoStatePhone)]

/-- The admin signing secret of the demos. -/
def demoSecret : String := "demo-jwt-secret"

/-- A signed admin token with expiry 100. -/
def demoToken : TokenStr :=
  .signed { sub := "admin", user_id := 1, exp := 100 } demoSecret

/-! ## Theorems -/

/-- `find?` commutes with a `map` whose function preserves the predicate. -/
theorem find?_map_pred {α : Type} (f : α → α) (p : α → Bool) (l : List α)
    (hf : ∀ x, p (f x) = p x) : (l.map f).find? p = (l.find? p).map f := by
  induction l with
  | nil => rfl
  | cons a t ih =>
    by_cases h : p a = true
    · rw [List.map_cons, List.find?_cons_of_pos _ (by rw [hf]; exact h),
        List.find?_cons_of_pos _ h, Option.map_some']
    · rw [List.map_cons, List.find?_cons_of_neg _ (by rw [hf]; simpa using h),
        List.find?_cons_of_neg _ (by simpa using h), ih]

/-- A successful `find?` splits the list at the first hit. -/
theorem find?_first_split {α : Type} (p : α → Bool) (l : List α) (b : α)
    (h : l.find? p = some b) :
    p b = true ∧ ∃ l1 l2, l = l1 ++ b :: l2 ∧ ∀ x ∈ l1, p x = false := by
  induction l with
  | nil => simp [List.find?] at h
  | cons a t ih =>
    by_cases hpa : p a = true
    · rw [List.find?_cons_of_pos _ hpa] at h
      cases h
      exact ⟨hpa, [], t, rfl, by simp⟩
    · rw [List.find?_cons_of_neg _ (by simpa using hpa)] at h
      obtain ⟨hb, l1, l2, rfl, hl1⟩ := ih h
      refine ⟨hb, a :: l1, l2, rfl, ?_⟩
      intro x hx
      rcases List.mem_cons.mp hx with rfl | hx
      · simpa using hpa
      · exact hl1 x hx

/-- Any gateway failure short-circuits: the result is a failure and the
database is returned unchanged. -/
theorem process_payment_failure_shape (env : GatewayEnv) (db : DB)
    (user_id : Nat) (pd : PaymentDetails) (reference : String)
    (h : env.banks_result.status = false ∨
         findBank env.banks_result.data pd.bank_name = none ∨
         env.resolve_result.status = false ∨
         env.recipient_result.status = false ∨
         env.transfer_result.status = false) :
    (process_payment env db user_id pd reference).1.success = false ∧
    (process_payment env db user_id pd reference).2 = db := by
  unfold process_payment
  cases hb : env.banks_result.status with
  | false => simp [payFail]
  | true =>
    simp only [hb, Bool.not_true, Bool.false_eq_true, if_false]
    cases hf : findBank env.banks_result.data pd.bank_name with
    | none => simp [payFail]
    | some bank =>
      cases hr : env.resolve_result.status with
      | false => simp [payFail]
      | true =>
        simp only [hr, Bool.not_true, Bool.false_eq_true, if_false]
        cases hc : env.recipient_result.status with
        | false => simp [payFail]
        | true =>
          simp only [hc, Bool.not_true, Bool.false_eq_true, if_false]
          cases ht : env.transfer_result.status with
          | false => simp [payFail]
          | true => simp_all

/-- C1: if any of the four gateway sub-steps (bank-list fetch / bank match,
account resolution, recipient creation, transfer initiation) returns a
non-success result, `process_payment` returns a failure and the database —
in particular the payer's wallet balance and the transaction table — is
unchanged. -/
theorem C1_gateway_failure_leaves_db_unchanged (env : GatewayEnv) (db : DB)
    (user_id : Nat) (pd : PaymentDetails) (reference : String)
    (h : env.banks_result.status = false ∨
         findBank env.banks_result.data pd.bank_name = none ∨
         env.resolve_result.status = false ∨
         env.recipient_result.status = false ∨
         env.transfer_result.status = false) :
    (process_payment env db user_id pd reference).1.success = false ∧
    (process_payment env db user_id pd reference).2 = db :=
  process_payment_failure_shape env db user_id pd reference h

/-- C1 witness: a concrete run whose transfer initiation fails. -/
theorem C1_witness :
    (process_payment demoEnvTransferFail demoDB 1 demoPd "REF1").1.success = false ∧
    (process_payment demoEnvTransferFail demoDB 1 demoPd "REF1").2 = demoDB :=
  C1_gateway_failure_leaves_db_unchanged demoEnvTransferFail demoDB 1 demoPd "REF1"
    (Or.inr (Or.inr (Or.inr (Or.inr (by decide)))))

/-- C10: `Database.update_wallet` adds the amount on the exact operation
string `"add"` and subtracts it on every other operation string — unknown
operations are not rejected, they subtract. -/
theorem C10_update_wallet_dispatch (db : DB) (user_id : Nat) (amount : Money)
    (op : String) (u : User)
    (hu : fetchUserById db.users user_id = some u) :
    ∃ u', fetchUserById (Database.update_wallet db user_id amount op).users
            user_id = some u' ∧
      u'.wallet_balance =
        if op = "add" then u.wallet_balance + amount
        else u.wallet_balance - amount := by
  have hpres : ∀ x : User,
      ((walletUpd user_id amount op x).id == user_id) = (x.id == user_id) := by
    intro x
    unfold walletUpd
    by_cases h : x.id = user_id <;> by_cases h2 : op = "add" <;> simp [h, h2]
  unfold fetchUserById at hu ⊢
  unfold Database.update_wallet
  rw [find?_map_pred _ _ _ hpres, hu, Option.map_some']
  refine ⟨walletUpd user_id amount op u, rfl, ?_⟩
  have hid : u.id = user_id := by simpa using List.find?_some hu
  unfold walletUpd
  by_cases h2 : op = "add" <;> simp [hid, h2]

/-- C10 witness: the misspelled operation `"subtrct"` subtracts. -/
theorem C10_witness :
    (fetchUserById (Database.update_wallet demoDB 1 25 "subtrct").users 1).map
      User.wallet_balance = some (demoUser.wallet_balance - 25) := by
  obtain ⟨u', hu', hb⟩ :=
    C10_update_wallet_dispatch demoDB 1 25 "subtrct" demoUser (by decide)
  rw [hu', Option.map_some', hb, if_neg (by decide)]

/-- C4: the bank match scans the gateway list in order and picks the first
bank related to the free-text name by case-insensitive substring containment
in either direction; when no listed bank matches, `process_payment` fails
with the bank-not-found error and leaves the database unchanged. -/
theorem C4_bank_matching (banks : List Bank) (name : String) :
    (∀ b, findBank banks name = some b →
      bankNameMatches name b = true ∧
      ∃ l1 l2, banks = l1 ++ b :: l2 ∧
        ∀ x ∈ l1, bankNameMatches name x = false) ∧
    (findBank banks name = none →
      (∀ b ∈ banks, bankNameMatches name b = false) ∧
      ∀ env db user_id pd reference, env.banks_result.status = true →
        env.banks_result.data = banks → pd.bank_name = name →
        (process_payment env db user_id pd reference).1 =
          payFail "Bank not found" ∧
        (process_payment env db user_id pd reference).2 = db) := by
  constructor
  · intro b hb
    obtain ⟨hp, l1, l2, hsplit, hl1⟩ := find?_first_split _ _ _ hb
    exact ⟨hp, l1, l2, hsplit, hl1⟩
  · intro hnone
    constructor
    · intro b hb
      have := List.find?_eq_none.mp hnone b hb
      simpa using this
    · intro env db user_id pd reference hst hdata hname
      have hf : findBank env.banks_result.data pd.bank_name = none := by
        rw [hdata, hname]; exact hnone
      unfold process_payment
      simp [hst, hf]

/-- `walletUpd` never changes the row id. -/
theorem walletUpd_id (user_id : Nat) (amount : Money) (op : String)
    (x : User) : (walletUpd user_id amount op x).id = x.id := by
  unfold walletUpd
  by_cases h : x.id = user_id <;> by_cases h2 : op = "add" <;> simp [h, h2]

/-- `walletUpd` never changes the affiliate code. -/
theorem walletUpd_affiliate_code (user_id : Nat) (amount : Money) (op : String)
    (x : User) :
    (walletUpd user_id amount op x).affiliate_code = x.affiliate_code := by
  unfold walletUpd
  by_cases h : x.id = user_id <;> by_cases h2 : op = "add" <;> simp [h, h2]

/-- `walletUpd` never changes the referring code. -/
theorem walletUpd_referred_by (user_id : Nat) (amount : Money) (op : String)
    (x : User) :
    (walletUpd user_id amount op x).referred_by = x.referred_by := by
  unfold walletUpd
  by_cases h : x.id = user_id <;> by_cases h2 : op = "add" <;> simp [h, h2]

/-- `walletUpd` leaves rows with another id untouched. -/
theorem walletUpd_of_ne (user_id : Nat) (amount : Money) (op : String)
    (x : User) (h : x.id ≠ user_id) : walletUpd user_id amount op x = x := by
  unfold walletUpd
  simp [h]

/-- `walletUpd` on the matching row, subtracting. -/
theorem walletUpd_subtract (user_id : Nat) (amount : Money) (x : User)
    (h : x.id = user_id) :
    walletUpd user_id amount "subtract" x =
      { x with wallet_balance := x.wallet_balance - amount } := by
  unfold walletUpd
  simp [h]

/-- `walletUpd` on the matching row, adding. -/
theorem walletUpd_add (user_id : Nat) (amount : Money) (x : User)
    (h : x.id = user_id) :
    walletUpd user_id amount "add" x =
      { x with wallet_balance := x.wallet_balance + amount } := by
  unfold walletUpd
  simp [h]

/-- `fetchUserById` after `update_wallet`: the same row, updated. -/
theorem fetchUserById_update_wallet (db : DB) (uid target : Nat)
    (amount : Money) (op : String) :
    fetchUserById (Database.update_wallet db target amount op).users uid =
      (fetchUserById db.users uid).map (walletUpd target amount op) := by
  unfold fetchUserById Database.update_wallet
  exact find?_map_pred _ _ _ (fun x => by rw [walletUpd_id])

/-- `fetchUserByCode` after `update_wallet`: the same row, updated. -/
theorem fetchUserByCode_update_wallet (db : DB) (code : String) (target : Nat)
    (amount : Money) (op : String) :
    fetchUserByCode (Database.update_wallet db target amount op).users code =
      (fetchUserByCode db.users code).map (walletUpd target amount op) := by
  unfold fetchUserByCode Database.update_wallet
  exact find?_map_pred _ _ _ (fun x => by rw [walletUpd_affiliate_code])

/-- When all four gateway calls succeed, `process_payment` runs the
settlement tail. -/
theorem process_payment_all_success (env : GatewayEnv) (db : DB)
    (user_id : Nat) (pd : PaymentDetails) (reference : String)
    (hb : env.banks_result.status = true)
    (hbank : findBank env.banks_result.data pd.bank_name ≠ none)
    (hr : env.resolve_result.status = true)
    (hc : env.recipient_result.status = true)
    (ht : env.transfer_result.status = true) :
    process_payment env db user_id pd reference =
      settle_payment env db user_id pd reference := by
  unfold process_payment
  cases hf : findBank env.banks_result.data pd.bank_name with
  | none => exact absurd hf hbank
  | some bank => simp [hb, hf, hr, hc, ht]

/-- A reported success pins down the branch: all four gateway calls
succeeded and the settlement tail ran. -/
theorem process_payment_success_eq (env : GatewayEnv) (db : DB)
    (user_id : Nat) (pd : PaymentDetails) (reference : String)
    (hs : (process_payment env db user_id pd reference).1.success = true) :
    process_payment env db user_id pd reference =
      settle_payment env db user_id pd reference := by
  cases hb : env.banks_result.status with
  | false =>
    exfalso
    have := (process_payment_failure_shape env db user_id pd reference
      (Or.inl hb)).1
    rw [this] at hs
    exact Bool.false_ne_true hs
  | true =>
    cases hf : findBank env.banks_result.data pd.bank_name with
    | none =>
      exfalso
      have := (process_payment_failure_shape env db user_id pd
        reference (Or.inr (Or.inl hf))).1
      rw [this] at hs
      exact Bool.false_ne_true hs
    | some bank =>
      cases hr : env.resolve_result.status with
      | false =>
        exfalso
        have := (process_payment_failure_shape env db user_id pd
          reference (Or.inr (Or.inr (Or.inl hr)))).1
        rw [this] at hs
        exact Bool.false_ne_true hs
      | true =>
        cases hc : env.recipient_result.status with
        | false =>
          exfalso
          have := (process_payment_failure_shape env db user_id pd
            reference (Or.inr (Or.inr (Or.inr (Or.inl hc))))).1
          rw [this] at hs
          exact Bool.false_ne_true hs
        | true =>
          cases ht : env.transfer_result.status with
          | false =>
            exfalso
            have := (process_payment_failure_shape env db user_id pd
              reference (Or.inr (Or.inr (Or.inr (Or.inr ht))))).1
            rw [this] at hs
            exact Bool.false_ne_true hs
          | true =>
            exact process_payment_all_success env db user_id pd reference hb
              (by rw [hf]; exact Option.some_ne_none bank) hr hc ht

/-- With no referrer found, the settlement only debits the payer. -/
theorem settle_payment_users_none (env : GatewayEnv) (db : DB)
    (user_id : Nat) (pd : PaymentDetails) (reference : String)
    (h : referrerLookup
      (Database.update_wallet db user_id pd.amount "subtract").users
      user_id = none) :
    (settle_payment env db user_id pd reference).2.users =
      (Database.update_wallet db user_id pd.amount "subtract").users := by
  simp only [settle_payment, Database.create_transaction, h]

/-- With a referrer found, the settlement debits the payer and credits the
referrer's row. -/
theorem settle_payment_users_some (env : GatewayEnv) (db : DB)
    (user_id : Nat) (pd : PaymentDetails) (reference : String) (r : User)
    (h : referrerLookup
      (Database.update_wallet db user_id pd.amount "subtract").users
      user_id = some r) :
    (settle_payment env db user_id pd reference).2.users =
      (Database.update_wallet
        (Database.update_wallet db user_id pd.amount "subtract")
        r.id (pd.amount * (0.005 : ℚ)) "add").users := by
  simp only [settle_payment, Database.create_transaction, h]

/-- `referrerLookup` through the fetched payer row. -/
theorem referrerLookup_none_of_no_code (users : List User) (user_id : Nat)
    (payer1 : User) (hp : fetchUserById users user_id = some payer1)
    (h : payer1.referred_by = none) :
    referrerLookup users user_id = none := by
  unfold referrerLookup
  rw [hp]
  show (match payer1.referred_by with
    | none => none
    | some code => if code.isEmpty then none
                   else fetchUserByCode users code) = none
  rw [h]

/-- `referrerLookup` through a present referring code. -/
theorem referrerLookup_of_code (users : List User) (user_id : Nat)
    (payer1 : User) (code : String)
    (hp : fetchUserById users user_id = some payer1)
    (h : payer1.referred_by = some code) :
    referrerLookup users user_id =
      if code.isEmpty then none else fetchUserByCode users code := by
  unfold referrerLookup
  rw [hp]
  show (match payer1.referred_by with
    | none => none
    | some c => if c.isEmpty then none
                else fetchUserByCode users c) =
    if code.isEmpty then none else fetchUserByCode users code
  rw [h]

/-- The balance effect of the settlement tail: the payer is debited the
gross amount; a referrer looked up through a truthy `referred_by` code is
credited 0.5% of it. -/
theorem settle_payment_effect (env : GatewayEnv) (db : DB) (user_id : Nat)
    (pd : PaymentDetails) (reference : String) (payer : User)
    (hp : fetchUserById db.users user_id = some payer)
    (hnr : ∀ code r, payer.referred_by = some code →
      fetchUserByCode db.users code = some r → r.id ≠ user_id) :
    ((fetchUserById (settle_payment env db user_id pd reference).2.users
        user_id).map User.wallet_balance
      = some (payer.wallet_balance - pd.amount)) ∧
    (∀ code r, payer.referred_by = some code → code.isEmpty = false →
      fetchUserByCode db.users code = some r →
      (fetchUserByCode (settle_payment env db user_id pd reference).2.users
          code).map User.wallet_balance
        = some (r.wallet_balance + pd.amount * (0.005 : ℚ))) := by
  have hpid : payer.id = user_id := by simpa using List.find?_some hp
  have hdb1 : fetchUserById
      (Database.update_wallet db user_id pd.amount "subtract").users user_id
      = some (walletUpd user_id pd.amount "subtract" payer) := by
    rw [fetchUserById_update_wallet, hp, Option.map_some']
  have href1 : (walletUpd user_id pd.amount "subtract" payer).referred_by
      = payer.referred_by := walletUpd_referred_by _ _ _ _
  cases hrb : payer.referred_by with
  | none =>
    have hrl : referrerLookup
        (Database.update_wallet db user_id pd.amount "subtract").users
        user_id = none :=
      referrerLookup_none_of_no_code _ _ _ hdb1 (href1.trans hrb)
    have husers := settle_payment_users_none env db user_id pd reference hrl
    constructor
    · rw [husers, hdb1, Option.map_some', walletUpd_subtract _ _ _ hpid]
    · intro code r hcode hne hfetch
      exact absurd hcode (by simp)
  | some code =>
    have hrl0 : referrerLookup
        (Database.update_wallet db user_id pd.amount "subtract").users
        user_id =
        if code.isEmpty then none
        else fetchUserByCode
          (Database.update_wallet db user_id pd.amount "subtract").users
          code :=
      referrerLookup_of_code _ _ _ _ hdb1 (href1.trans hrb)
    by_cases hemp : code.isEmpty = true
    · rw [if_pos hemp] at hrl0
      have husers := settle_payment_users_none env db user_id pd reference hrl0
      constructor
      · rw [husers, hdb1, Option.map_some', walletUpd_subtract _ _ _ hpid]
      · intro code' r hcode' hne' hfetch'
        injection hcode' with hcc
        rw [hcc] at hemp
        rw [hemp] at hne'
        exact absurd hne' (by simp)
    · rw [if_neg hemp, fetchUserByCode_update_wallet] at hrl0
      cases hr0 : fetchUserByCode db.users code with
      | none =>
        rw [hr0] at hrl0
        have husers := settle_payment_users_none env db user_id pd reference
          hrl0
        constructor
        · rw [husers, hdb1, Option.map_some', walletUpd_subtract _ _ _ hpid]
        · intro code' r hcode' hne' hfetch'
          injection hcode' with hcc
          rw [← hcc] at hfetch'
          rw [hr0] at hfetch'
          exact absurd hfetch' (by simp)
      | some r0 =>
        rw [hr0, Option.map_some'] at hrl0
        have hr0ne : r0.id ≠ user_id := hnr code r0 hrb hr0
        rw [walletUpd_of_ne _ _ _ _ hr0ne] at hrl0
        have husers := settle_payment_users_some env db user_id pd
          reference r0 hrl0
        constructor
        · rw [husers, fetchUserById_update_wallet, hdb1, Option.map_some',
            Option.map_some']
          rw [walletUpd_of_ne _ _ _ _ (by
            rw [walletUpd_id, hpid]
            exact fun h => hr0ne h.symm)]
          rw [walletUpd_subtract _ _ _ hpid]
        · intro code' r' hcode' hne' hfetch'
          have hcc : code' = code := by
            injection hcode' with h1
            exact h1.symm
          subst hcc
          have hrr : r' = r0 := by
            rw [hr0] at hfetch'
            injection hfetch' with h1
            exact h1.symm
          subst hrr
          rw [husers, fetchUserByCode_update_wallet,
            fetchUserByCode_update_wallet, hr0, Option.map_some',
            Option.map_some', Option.map_some']
          rw [walletUpd_of_ne _ _ _ _ hr0ne]
          rw [walletUpd_add _ _ _ rfl]

/-- C4 witness: "zenith" picks the listed "Zenith Bank" (substring one way);
"GTBank" matches no listed name in either direction, and the concrete run
fails with the bank-not-found error. -/
theorem C4_witness :
    bankNameMatches "zenith" { name := "Zenith Bank", code := "057" } = true ∧
    bankNameMatches "GTBank" { name := "Guaranty Trust Bank", code := "058" } = false ∧
    (process_payment
      { demoEnv with banks_result := { status := true, data := demoBanks } }
      demoDB 1 { demoPd with bank_name := "GTBank" } "REF4").1 =
      payFail "Bank not found" := by
  refine ⟨?_, ?_, ?_⟩
  · exact ((C4_bank_matching demoBanks "zenith").1
      { name := "Zenith Bank", code := "057" } (by decide)).1
  · exact ((C4_bank_matching demoBanks "GTBank").2 (by decide)).1
      { name := "Guaranty Trust Bank", code := "058" } (by decide)
  · exact (((C4_bank_matching demoBanks "GTBank").2 (by decide)).2
      _ demoDB 1 _ "REF4" (by decide) (by decide) (by decide)).1

end CandicePay

namespace CandicePay

/-- C2: a payment that completes successfully debits the payer's wallet by
exactly the gross amount, and when the payer has a referring user (a user
whose affiliate code equals the payer's `referred_by`), that referrer's
wallet is credited exactly 0.5% of the gross amount. -/
theorem C2_success_wallet_arithmetic (env : GatewayEnv) (db : DB)
    (user_id : Nat) (pd : PaymentDetails) (reference : String) (payer : User)
    (hs : (process_payment env db user_id pd reference).1.success = true)
    (hp : fetchUserById db.users user_id = some payer)
    (hnr : ∀ code r, payer.referred_by = some code →
      fetchUserByCode db.users code = some r → r.id ≠ user_id) :
    ((fetchUserById (process_payment env db user_id pd reference).2.users
        user_id).map User.wallet_balance
      = some (payer.wallet_balance - pd.amount)) ∧
    (∀ code r, payer.referred_by = some code → code.isEmpty = false →
      fetchUserByCode db.users code = some r →
      (fetchUserByCode (process_payment env db user_id pd reference).2.users
          code).map User.wallet_balance
        = some (r.wallet_balance + pd.amount * (0.005 : ℚ))) := by
  rw [process_payment_success_eq env db user_id pd reference hs]
  exact settle_payment_effect env db user_id pd reference payer hp hnr

/-- C2 witness: the demo payer pays 10000.00; the balance drops from 500 to
-9500 and the referrer's balance rises from 40 by the 50.00 bonus to 90. -/
theorem C2_witness :
    (fetchUserById (process_payment demoEnv demoDB 1 demoPd "REF2").2.users
      1).map User.wallet_balance = some (-9500) ∧
    (fetchUserByCode (process_payment demoEnv demoDB 1 demoPd "REF2").2.users
      "CANDICEBBB222").map User.wallet_balance = some 90 := by
  have h := C2_success_wallet_arithmetic demoEnv demoDB 1 demoPd "REF2"
    demoUser (by decide) (by decide)
    (by
      intro code r hc hr
      have hc2 : some "CANDICEBBB222" = some code := hc
      injection hc2 with hc3
      subst hc3
      have hr2 : fetchUserByCode demoDB.users "CANDICEBBB222"
          = some demoReferrer := by decide
      rw [hr2] at hr
      injection hr with hr3
      subst hr3
      decide)
  constructor
  · rw [h.1]
    norm_num [demoUser, demoPd]
  · rw [h.2 "CANDICEBBB222" demoReferrer rfl rfl (by decide)]
    norm_num [demoReferrer, demoPd]

/-- C3: `process_payment` never checks the requested amount against the
payer's balance: with all four gateway sub-steps succeeding, an amount
strictly greater than the balance is still debited in full, driving the
balance negative — the only balance check in the flow is the
`balance > 0` gate when `/pay` starts. -/
theorem C3_no_balance_check_overdraft (env : GatewayEnv) (db : DB)
    (user_id : Nat) (pd : PaymentDetails) (reference : String) (payer : User)
    (hb : env.banks_result.status = true)
    (hbank : findBank env.banks_result.data pd.bank_name ≠ none)
    (hr : env.resolve_result.status = true)
    (hc : env.recipient_result.status = true)
    (ht : env.transfer_result.status = true)
    (hp : fetchUserById db.users user_id = some payer)
    (hnr : ∀ code r, payer.referred_by = some code →
      fetchUserByCode db.users code = some r → r.id ≠ user_id)
    (hpos : 0 < payer.wallet_balance)
    (hlt : payer.wallet_balance < pd.amount) :
    pay_command_allows payer.wallet_balance = true ∧
    (process_payment env db user_id pd reference).1.success = true ∧
    (fetchUserById (process_payment env db user_id pd reference).2.users
        user_id).map User.wallet_balance
      = some (payer.wallet_balance - pd.amount) ∧
    payer.wallet_balance - pd.amount < 0 := by
  have heq := process_payment_all_success env db user_id pd reference hb
    hbank hr hc ht
  refine ⟨?_, ?_, ?_, ?_⟩
  · unfold pay_command_allows
    rw [if_neg (not_le.mpr hpos)]
  · rw [heq]
    rfl
  · rw [heq]
    exact (settle_payment_effect env db user_id pd reference payer hp hnr).1
  · exact sub_neg.mpr hlt

/-- C3 witness: balance 500 passes the `/pay` gate, the 10000.00 payment
still succeeds and leaves the balance at -9500. -/
theorem C3_witness :
    pay_command_allows demoUser.wallet_balance = true ∧
    (process_payment demoEnv demoDB 1 demoPd "REF3").1.success = true ∧
    (fetchUserById (process_payment demoEnv demoDB 1 demoPd "REF3").2.users
      1).map User.wallet_balance = some (-9500) ∧
    demoUser.wallet_balance - demoPd.amount < 0 := by
  have h := C3_no_balance_check_overdraft demoEnv demoDB 1 demoPd "REF3"
    demoUser (by decide) (by decide) (by decide) (by decide) (by decide)
    (by decide)
    (by
      intro code r hcd hrr
      have hc2 : some "CANDICEBBB222" = some code := hcd
      injection hc2 with hc3
      subst hc3
      have hr2 : fetchUserByCode demoDB.users "CANDICEBBB222"
          = some demoReferrer := by decide
      rw [hr2] at hrr
      injection hrr with hr3
      subst hr3
      decide)
    (by decide) (by decide)
  refine ⟨h.1, h.2.1, ?_, h.2.2.2⟩
  rw [h.2.2.1]
  norm_num [demoUser, demoPd]

end CandicePay

namespace CandicePay

/-- C5: the transfer initiation sends `int(amount * 100)` — the amount
converted to the processor's minor unit; whenever `amount * 100` is an
integer `k` (an amount expressible in whole kobo), the wire amount is
exactly `k`. -/
theorem C5_transfer_minor_units (amount : Money)
    (recipient_code reason : String) (k : ℤ) (hk : amount * 100 = (k : ℚ)) :
    (PaystackService.initiate_transfer_body amount recipient_code
      reason).amount = pyInt (amount * 100) ∧
    (PaystackService.initiate_transfer_body amount recipient_code
      reason).amount = k := by
  refine ⟨rfl, ?_⟩
  show pyInt (amount * 100) = k
  rw [hk]
  unfold pyInt
  by_cases h : (0 : ℚ) ≤ (k : ℚ)
  · rw [if_pos h, Int.floor_intCast]
  · rw [if_neg h, ← Int.cast_neg, Int.floor_intCast, neg_neg]

/-- C5 witness: 10000.00 is wired as 1000000 kobo. -/
theorem C5_witness :
    (PaystackService.initiate_transfer_body 10000 "RCP_demo"
      "Payment via CandicePay").amount = 1000000 :=
  (C5_transfer_minor_units 10000 "RCP_demo" "Payment via CandicePay"
    1000000 (by norm_num)).2

/-- C7: both admin list endpoints compute `offset = (page - 1) * limit`,
return at most `limit` rows starting at that offset, and report
`pages = (total + limit - 1) / limit`, which is the ceiling of
`total / limit` (characterised by the two bounds proved here). -/
theorem C7_pagination {α : Type} (rows : List α) (page limit : Nat)
    (hl : 0 < limit) :
    (get_users_page rows page limit).1 =
      (rows.drop ((page - 1) * limit)).take limit ∧
    (get_users_page rows page limit).1.length ≤ limit ∧
    (get_users_page rows page limit).2.pages =
      (rows.length + limit - 1) / limit ∧
    rows.length ≤ (get_users_page rows page limit).2.pages * limit ∧
    (get_users_page rows page limit).2.pages * limit < rows.length + limit ∧
    get_transactions_page rows page limit = get_users_page rows page limit := by
  refine ⟨rfl, ?_, rfl, ?_, ?_, rfl⟩
  · show ((rows.drop ((page - 1) * limit)).take limit).length ≤ limit
    rw [List.length_take]
    exact min_le_left _ _
  · obtain ⟨e, he0⟩ : ∃ e, rows.length + limit - 1 = e := ⟨_, rfl⟩
    show rows.length ≤ (rows.length + limit - 1) / limit * limit
    rw [he0]
    have h1 := Nat.div_add_mod e limit
    have h2 := Nat.mod_lt e hl
    have he : e + 1 = rows.length + limit := by omega
    linarith [h1, h2, he, Nat.mul_comm (e / limit) limit]
  · obtain ⟨e, he0⟩ : ∃ e, rows.length + limit - 1 = e := ⟨_, rfl⟩
    show (rows.length + limit - 1) / limit * limit < rows.length + limit
    rw [he0]
    have h1 := Nat.div_add_mod e limit
    have h2 := Nat.mod_lt e hl
    have he : e + 1 = rows.length + limit := by omega
    have h3 : e / limit * limit ≤ e := Nat.div_mul_le_self e limit
    linarith [h1, h2, he, h3]

/-- C7 witness: page 2 with limit 20 over 25 rows returns 5 rows and
reports 2 pages. -/
theorem C7_witness :
    (get_users_page (List.range 25) 2 20).1.length = 5 ∧
    (get_users_page (List.range 25) 2 20).2.pages = 2 ∧
    (get_users_page (List.range 25) 2 20).1.length ≤ 20 ∧
    (get_transactions_page (List.range 25) 2 20).2.pages = 2 := by
  have h := C7_pagination (List.range 25) 2 20 (by decide)
  exact ⟨by decide, by decide, h.2.1, by decide⟩

/-- C9: invalid input at a validating registration step re-prompts and
leaves the conversation map — the step and every collected field —
untouched: a message without both `'@'` and `'.'` at `awaiting_email`, or
one with fewer than ten digit characters at `awaiting_phone`. -/
theorem handle_message_of_reprompt (m : UserStates) (uid : Nat)
    (state : RegState) (text : String) (reply : String)
    (hm : m.lookup uid = some state)
    (h : handle_message_step state text = .reprompt reply) :
    handle_message m uid text = m := by
  unfold handle_message
  rw [hm]
  show (match handle_message_step state text with
    | .reprompt _ => m
    | .updated s _ => setState m uid s
    | .createAccount s => setState m uid s
    | .ignored => m) = m
  rw [h]

/-- C9: invalid input at a validating registration step re-prompts and
leaves the conversation map — the step and every collected field —
untouched: a message without both an at-sign and a dot at
`awaiting_email`, or one with fewer than ten digit characters at
`awaiting_phone`. -/
theorem C9_invalid_input_keeps_state (m : UserStates) (uid : Nat)
    (state : RegState) (text : String)
    (hm : m.lookup uid = some state) :
    (state.step = "awaiting_email" →
      (text.toList.contains '@' = false ∨ text.toList.contains '.' = false) →
      handle_message m uid text = m ∧
      handle_message_step state text =
        .reprompt "Please enter a valid email address:") ∧
    (state.step = "awaiting_phone" →
      (text.toList.filter Char.isDigit).length < 10 →
      handle_message m uid text = m ∧
      handle_message_step state text =
        .reprompt "Please enter a valid phone number (10+ digits):") := by
  constructor
  · intro hstep hbad
    have hcond : (!(text.toList.contains '@') ||
        !(text.toList.contains '.')) = true := by
      rcases hbad with h | h
      all_goals simp at h
      · simp [h]
      · simp [h]
    have hout : handle_message_step state text =
        .reprompt "Please enter a valid email address:" := by
      unfold handle_message_step
      rw [if_pos hstep, if_pos hcond]
    exact ⟨handle_message_of_reprompt m uid state text _ hm hout, hout⟩
  · intro hstep hbad
    have hlen : ((text.toList.filter Char.isDigit).asString).length < 10 :=
      hbad
    have hout : handle_message_step state text =
        .reprompt "Please enter a valid phone number (10+ digits):" := by
      unfold handle_message_step
      rw [if_neg (by rw [hstep]; decide), if_neg (by rw [hstep]; decide),
        if_pos hstep]
      show (if ((text.toList.filter Char.isDigit).asString).length < 10 then
          RegOutcome.reprompt "Please enter a valid phone number (10+ digits):"
        else RegOutcome.createAccount
          { state with
              phone := some ((text.toList.filter Char.isDigit).asString) })
        = RegOutcome.reprompt "Please enter a valid phone number (10+ digits):"
      rw [if_pos hlen]
    exact ⟨handle_message_of_reprompt m uid state text _ hm hout, hout⟩

/-- C9 witness: "notanemail" at the email step and "080123" at the phone
step leave the demo conversation maps unchanged. -/
theorem C9_witness :
    handle_message demoStatesEmail 7 "notanemail" = demoStatesEmail ∧
    handle_message demoStatesPhone 7 "080123" = demoStatesPhone := by
  constructor
  · exact ((C9_invalid_input_keeps_state demoStatesEmail 7 demoStateEmail
      "notanemail" (by decide)).1 rfl (Or.inl (by decide))).1
  · exact ((C9_invalid_input_keeps_state demoStatesPhone 7 demoStatePhone
      "080123" (by decide)).2 rfl (by decide)).1

end CandicePay

namespace CandicePay

/-- C8 (amended): every `/admin/api/*` endpoint (stats, users,
transactions, broadcast) returns 401 when the `auth_token` cookie is
missing or fails verification (malformed, wrong signing secret, or
expired).  With a verifying token, stats, users and broadcast proceed to
the documented response body computed from the store, and transactions
does so only when both the `type` and `status` filters are empty: any
non-empty filter makes its count query (which lacks the alias `t` that the
appended conditions reference) raise, surfacing as an HTTP 500 instead of
the documented shape. -/
theorem C8_admin_api_auth (secret : String) (now : Nat) (db : DB)
    (isToday : Transaction → Bool) (urows : List User)
    (trows : List Transaction) (page limit : Nat)
    (type_ status_ message : String) :
    (get_stats secret now none db isToday = .unauthorized ∧
     get_users secret now none urows page limit = .unauthorized ∧
     get_transactions secret now none trows page limit type_ status_ =
       .unauthorized ∧
     broadcast_message secret now none db message = .unauthorized) ∧
    (∀ t, verify_jwt_token secret now t = none →
      get_stats secret now (some t) db isToday = .unauthorized ∧
      get_users secret now (some t) urows page limit = .unauthorized ∧
      get_transactions secret now (some t) trows page limit type_ status_ =
        .unauthorized ∧
      broadcast_message secret now (some t) db message = .unauthorized) ∧
    (∀ s, verify_jwt_token secret now (.malformed s) = none) ∧
    (∀ p s, s ≠ secret → verify_jwt_token secret now (.signed p s) = none) ∧
    (∀ p, p.exp ≤ now → verify_jwt_token secret now (.signed p secret) = none) ∧
    (∀ p, now < p.exp → verify_jwt_token secret now (.signed p secret) = some p) ∧
    (∀ t p, verify_jwt_token secret now t = some p →
      get_stats secret now (some t) db isToday =
        .ok { users := db.users.length,
              transactions := db.transactions.length,
              totalVolume := sumAmounts db.transactions,
              todayVolume := sumAmounts (db.transactions.filter isToday) } ∧
      get_users secret now (some t) urows page limit =
        .ok (get_users_page urows page limit) ∧
      (type_.isEmpty = true → status_.isEmpty = true →
        get_transactions secret now (some t) trows page limit type_ status_ =
          .ok (get_transactions_page trows page limit)) ∧
      ((type_.isEmpty && status_.isEmpty) = false →
        get_transactions secret now (some t) trows page limit type_ status_ =
          .internalError (if type_.isEmpty then "no such column: t.status"
            else "no such column: t.type")) ∧
      (message.isEmpty = false → 5 ≤ message.length →
        broadcast_message secret now (some t) db message =
          .ok ("Broadcast would be sent to " ++
            toString (db.users.filter (fun u => u.status == "active")).length ++
            " users")) ∧
      (message.length < 5 →
        broadcast_message secret now (some t) db message =
          .badRequest "Message too short")) := by
  refine ⟨⟨rfl, rfl, rfl, rfl⟩, ?_, ?_, ?_, ?_, ?_, ?_⟩
  · intro t ht
    have hg : ∀ (α : Type) (body : ApiResponse α),
        authGate secret now (some t) body = .unauthorized := by
      intro α body
      unfold authGate
      show (match verify_jwt_token secret now t with
        | none => ApiResponse.unauthorized
        | some _ => body) = ApiResponse.unauthorized
      rw [ht]
    exact ⟨hg _ _, hg _ _, hg _ _, hg _ _⟩
  · intro s
    rfl
  · intro p s hs
    show (if s = secret then (if p.exp ≤ now then none else some p)
      else none) = (none : Option JwtPayload)
    rw [if_neg hs]
  · intro p hexp
    show (if secret = secret then (if p.exp ≤ now then none else some p)
      else none) = (none : Option JwtPayload)
    rw [if_pos rfl, if_pos hexp]
  · intro p hexp
    show (if secret = secret then (if p.exp ≤ now then none else some p)
      else none) = some p
    rw [if_pos rfl, if_neg (not_le.mpr hexp)]
  · intro t p ht
    have hg : ∀ (α : Type) (body : ApiResponse α),
        authGate secret now (some t) body = body := by
      intro α body
      unfold authGate
      show (match verify_jwt_token secret now t with
        | none => ApiResponse.unauthorized
        | some _ => body) = body
      rw [ht]
    refine ⟨hg _ _, hg _ _, ?_, ?_, ?_, ?_⟩
    · intro hty hst
      refine (hg _ _).trans ?_
      rw [if_pos (by rw [hty, hst]; rfl)]
    · intro hne
      refine (hg _ _).trans ?_
      rw [if_neg (by simp [hne])]
    · intro hne hlong
      have hcond : (message.isEmpty || decide (message.length < 5))
          = false := by
        simp [hne]
        omega
      refine (hg _ _).trans ?_
      rw [hcond]
      simp
    · intro hshort
      have hcond : (message.isEmpty || decide (message.length < 5))
          = true := by
        simp [hshort]
      refine (hg _ _).trans ?_
      rw [hcond]
      simp

/-- C8 counterexample: with a token that verifies, the transactions
endpoint called with the non-empty filter `type=payment` answers with the
HTTP 500 of the failed count query (`no such column: t.type`), not the
documented response shape the original claim promises for every verified
`/admin/api/*` request. -/
theorem C8_counterexample :
    verify_jwt_token demoSecret 50 demoToken =
      some { sub := "admin", user_id := 1, exp := 100 } ∧
    get_transactions demoSecret 50 (some demoToken) demoDB.transactions 1 20
      "payment" "" = .internalError "no such column: t.type" ∧
    get_transactions demoSecret 50 (some demoToken) demoDB.transactions 1 20
      "payment" "" ≠ .ok (get_transactions_page demoDB.transactions 1 20) := by
  refine ⟨rfl, rfl, ?_⟩
  decide

/-- C8 witness: at time 50 the demo token verifies and the endpoints answer
with their bodies — transactions only on the unfiltered request, while the
`type=payment` filter yields the HTTP 500 of the failed count query; at
time 150 the token is expired and every endpoint returns 401, as they also
do with no cookie at all. -/
theorem C8_witness :
    get_stats demoSecret 50 none demoDB (fun t => t.status == "pending")
      = .unauthorized ∧
    verify_jwt_token demoSecret 150 demoToken = none ∧
    get_stats demoSecret 150 (some demoToken) demoDB
      (fun t => t.status == "pending") = .unauthorized ∧
    broadcast_message demoSecret 150 (some demoToken) demoDB "hello all"
      = .unauthorized ∧
    get_stats demoSecret 50 (some demoToken) demoDB
      (fun t => t.status == "pending")
      = .ok { users := 2, transactions := 0, totalVolume := 0,
              todayVolume := 0 } ∧
    get_users demoSecret 50 (some demoToken) demoDB.users 1 20
      = .ok (get_users_page demoDB.users 1 20) ∧
    get_transactions demoSecret 50 (some demoToken) demoDB.transactions 1 20
      "" "" = .ok (get_transactions_page demoDB.transactions 1 20) ∧
    get_transactions demoSecret 50 (some demoToken) demoDB.transactions 1 20
      "payment" "" = .internalError "no such column: t.type" ∧
    broadcast_message demoSecret 50 (some demoToken) demoDB "hello all"
      = .ok "Broadcast would be sent to 2 users" := by
  have hexp : verify_jwt_token demoSecret 150 demoToken = none := by
    have := (C8_admin_api_auth demoSecret 150 demoDB
      (fun t => t.status == "pending") demoDB.users demoDB.transactions 1 20
      "" "" "hello all").2.2.2.2.1 { sub := "admin", user_id := 1, exp := 100 }
      (by decide)
    exact this
  have hval : verify_jwt_token demoSecret 50 demoToken =
      some { sub := "admin", user_id := 1, exp := 100 } := by
    have := (C8_admin_api_auth demoSecret 50 demoDB
      (fun t => t.status == "pending") demoDB.users demoDB.transactions 1 20
      "" "" "hello all").2.2.2.2.2.1 { sub := "admin", user_id := 1, exp := 100 }
      (by decide)
    exact this
  have h150 := (C8_admin_api_auth demoSecret 150 demoDB
    (fun t => t.status == "pending") demoDB.users demoDB.transactions 1 20
    "" "" "hello all").2.1 demoToken hexp
  have h50 := (C8_admin_api_auth demoSecret 50 demoDB
    (fun t => t.status == "pending") demoDB.users demoDB.transactions 1 20
    "" "" "hello all").2.2.2.2.2.2 demoToken _ hval
  have h50B := (C8_admin_api_auth demoSecret 50 demoDB
    (fun t => t.status == "pending") demoDB.users demoDB.transactions 1 20
    "payment" "" "hello all").2.2.2.2.2.2 demoToken _ hval
  refine ⟨(C8_admin_api_auth demoSecret 50 demoDB
    (fun t => t.status == "pending") demoDB.users demoDB.transactions 1 20
    "" "" "hello all").1.1, hexp, h150.1, h150.2.2.2, ?_, h50.2.1,
    h50.2.2.1 rfl rfl, ?_, ?_⟩
  · rw [h50.1]
    rfl
  · rw [h50B.2.2.2.1 (by decide)]
    rfl
  · rw [h50.2.2.2.2.1 (by decide) (by decide)]
    rfl

end CandicePay

namespace CandicePay

/-- C6 counterexample: a model response whose brace-delimited text parses as
JSON but contains none of the expected keys (`account_number`,
`account_name`, `bank_name`, `amount`) still comes back with
`success = true` — the code never checks the keys, contradicting the claim
that their absence yields a soft failure. -/
theorem C6_counterexample :
    (extract_bank_details (some "ok: \x7b\x22foo\x22: \x22bar\x22\x7d")).success
      = true ∧
    (extract_bank_details (some "ok: \x7b\x22foo\x22: \x22bar\x22\x7d")).data =
      some (Json.obj [("foo", Json.str "bar")]) ∧
    hasExpectedKeys (Json.obj [("foo", Json.str "bar")]) = false :=
  ⟨rfl, rfl, rfl⟩

/-- C6 (amended): the extraction returns the soft failure exactly on a
missing content field, on a response with no brace-delimited match, or on a
match that does not parse as JSON; when the match parses, it returns
`success = true` with the parsed value, with no check of the expected
keys. -/
theorem C6_extraction_soft_failure (content : Option String) :
    (content = none → extract_bank_details content = extractFail) ∧
    (∀ c, content = some c → re_search_braces c = none →
      extract_bank_details content = extractFail) ∧
    (∀ c m, content = some c → re_search_braces c = some m →
      json_loads m = none → extract_bank_details content = extractFail) ∧
    (∀ c m v, content = some c → re_search_braces c = some m →
      json_loads m = some v →
      extract_bank_details content =
        { success := true, data := some v, error := none }) := by
  refine ⟨?_, ?_, ?_, ?_⟩
  · intro h
    rw [h]
    rfl
  · intro c hc hre
    rw [hc]
    show (match re_search_braces c with
      | none => extractFail
      | some m =>
        match json_loads m with
        | none => extractFail
        | some v => { success := true, data := some v, error := none }) =
      extractFail
    rw [hre]
  · intro c m hc hre hj
    rw [hc]
    show (match re_search_braces c with
      | none => extractFail
      | some m =>
        match json_loads m with
        | none => extractFail
        | some v => { success := true, data := some v, error := none }) =
      extractFail
    rw [hre]
    show (match json_loads m with
      | none => extractFail
      | some v => { success := true, data := some v, error := none }) =
      extractFail
    rw [hj]
  · intro c m v hc hre hj
    rw [hc]
    show (match re_search_braces c with
      | none => extractFail
      | some m =>
        match json_loads m with
        | none => extractFail
        | some v => { success := true, data := some v, error := none }) =
      { success := true, data := some v, error := none }
    rw [hre]
    show (match json_loads m with
      | none => extractFail
      | some v => { success := true, data := some v, error := none }) =
      { success := true, data := some v, error := none }
    rw [hj]

/-- C6 witness: concrete soft failures (no braces, unparseable match,
missing content) and a concrete success carrying the parsed value. -/
theorem C6_witness :
    extract_bank_details (some "no json here") = extractFail ∧
    extract_bank_details (some "\x7bnot valid\x7d") = extractFail ∧
    extract_bank_details none = extractFail ∧
    extract_bank_details (some "\x7b\x22a\x22: true\x7d") =
      { success := true, data := some (Json.obj [("a", Json.bool true)]),
        error := none } := by
  refine ⟨?_, ?_, ?_, ?_⟩
  · exact (C6_extraction_soft_failure (some "no json here")).2.1 _ rfl rfl
  · exact (C6_extraction_soft_failure (some "\x7bnot valid\x7d")).2.2.1 _ _
      rfl rfl rfl
  · exact (C6_extraction_soft_failure none).1 rfl
  · exact (C6_extraction_soft_failure (some "\x7b\x22a\x22: true\x7d")).2.2.2
      _ _ _ rfl rfl rfl

end CandicePay
